import Mathlib

/-!
Verification of the plane-slicing kernel in src/slicer/mod.rs.

Embedding choices:
* Coordinates (Rust f32) are modelled as exact rationals. The claims under
  study are control-flow and structural properties of the kernel; the model
  treats every floating-point operation as exact and has no NaN or infinity,
  matching the spec's precondition that all inputs are finite.
* Vec3 models glam's f32 vector; its arithmetic is componentwise.
* sort_by models Rust's stable slice sort_by, which for slices shorter than
  21 elements is the insert-head insertion sort (the lists sorted here have
  at most 6 elements), with is_less a b meaning compare(a, b) == Less.
* dedup_by models Vec::dedup_by: it walks the vector once, keeps the first
  element, and drops each element for which same_bucket(current, last_kept)
  holds, comparing every candidate against the last retained element.
-/

/-- EPSILON from src/slicer/mod.rs: maximum absolute coordinate difference
for two values to be considered equal (1e-6). -/
def EPSILON : ℚ := 1 / 1000000

/-- glam's Vec3 value type: three coordinates, modelled as exact rationals. -/
structure Vec3 where
  x : ℚ
  y : ℚ
  z : ℚ
deriving DecidableEq, Repr

/-- approx_equal from src/slicer/mod.rs: |a - b| <= max_abs_diff. -/
def approx_equal (a b max_abs_diff : ℚ) : Bool :=
  decide (|a - b| ≤ max_abs_diff)

/-- glam's Vec3::abs_diff_eq: componentwise |a - b| <= max_abs_diff on all
three axes. -/
def Vec3.abs_diff_eq (a b : Vec3) (max_abs_diff : ℚ) : Bool :=
  decide (|a.x - b.x| ≤ max_abs_diff) && decide (|a.y - b.y| ≤ max_abs_diff) &&
    decide (|a.z - b.z| ≤ max_abs_diff)

/-- f32 comparison as an Option Ordering (Rust's PartialOrd::partial_cmp).
On the rational model every value is finite, so the none case of the Rust
original (which arises only from NaN) cannot occur; this totality is what
claim C9 records. -/
def pcmp (a b : ℚ) : Option Ordering :=
  if a < b then some .lt else if b < a then some .gt else some .eq

/-- Option::unwrap at type Ordering. The fallback value stands in for the
panic on none; c9_unwrap_total shows the call sites never reach it. -/
def unwrap (o : Option Ordering) : Ordering :=
  o.getD .eq

/-- compare_by_xyz from src/slicer/mod.rs: lexicographic x, y, z comparison
where an axis is skipped when approx_equal holds on it. -/
def compare_by_xyz (a b : Vec3) (max_abs_diff : ℚ) : Ordering :=
  if approx_equal a.x b.x max_abs_diff = false then unwrap (pcmp a.x b.x)
  else if approx_equal a.y b.y max_abs_diff = false then unwrap (pcmp a.y b.y)
  else if approx_equal a.z b.z max_abs_diff = false then unwrap (pcmp a.z b.z)
  else .eq

/-- slice_segment from src/slicer/mod.rs. The glam vector operations
line[1] - line[0] (direction), line[0] + direction * t, and Vec3::new are
expanded componentwise. Branch order matches the source:
1. direction.y == 0 and start.y == height: the in-plane edge, both
   endpoints returned with y set to the height;
2. direction.y != 0: parameter t = (height - start.y) / direction.y, one
   interpolated point (y set to the height) when t is in [0, 1], else none;
3. otherwise: no intersection. -/
def slice_segment (line : Vec3 × Vec3) (current_layer_height : ℚ) : List Vec3 :=
  if line.2.y - line.1.y = 0 ∧ line.1.y = current_layer_height then
    [⟨line.1.x, current_layer_height, line.1.z⟩,
     ⟨line.2.x, current_layer_height, line.2.z⟩]
  else if line.2.y - line.1.y ≠ 0 then
    if 0 ≤ (current_layer_height - line.1.y) / (line.2.y - line.1.y) ∧
        (current_layer_height - line.1.y) / (line.2.y - line.1.y) ≤ 1 then
      [⟨line.1.x + (line.2.x - line.1.x) *
          ((current_layer_height - line.1.y) / (line.2.y - line.1.y)),
        current_layer_height,
        line.1.z + (line.2.z - line.1.z) *
          ((current_layer_height - line.1.y) / (line.2.y - line.1.y))⟩]
    else []
  else []

/-- One step of the std stable insertion sort: insert a into the already
sorted list, moving it right past every element b with c b a == Less. -/
def insert_head {α : Type} (c : α → α → Ordering) (a : α) : List α → List α
  | [] => [a]
  | b :: l => if c b a = Ordering.lt then b :: insert_head c a l else a :: b :: l

/-- Rust's stable slice sort_by, specialised to short slices where the std
implementation is the insert-head insertion sort. -/
def sort_by {α : Type} (c : α → α → Ordering) : List α → List α
  | [] => []
  | a :: l => insert_head c a (sort_by c l)

/-- Walk of Vec::dedup_by after the first element: prev is the last element
retained; a candidate is dropped when same candidate prev holds. -/
def dedup_by_loop {α : Type} (same : α → α → Bool) (prev : α) : List α → List α
  | [] => []
  | a :: l => if same a prev then dedup_by_loop same prev l else a :: dedup_by_loop same a l

/-- Vec::dedup_by: keeps the first element, then drops every element that
same_bucket-matches the last retained one. -/
def dedup_by {α : Type} (same : α → α → Bool) : List α → List α
  | [] => []
  | a :: l => a :: dedup_by_loop same a l

/-- slice_triangle from src/slicer/mod.rs: slice the three edges in winding
order (v0,v1), (v1,v2), (v2,v0), concatenate, sort with compare_by_xyz at
EPSILON, and dedup adjacent entries with Vec3::abs_diff_eq at EPSILON. -/
def slice_triangle (triangle : Vec3 × Vec3 × Vec3) (current_layer_height : ℚ) : List Vec3 :=
  dedup_by (fun a b => Vec3.abs_diff_eq a b EPSILON)
    (sort_by (fun a b => compare_by_xyz a b EPSILON)
      (slice_segment (triangle.1, triangle.2.1) current_layer_height ++
        slice_segment (triangle.2.1, triangle.2.2) current_layer_height ++
        slice_segment (triangle.2.2, triangle.1) current_layer_height))

/-- Raw numeric comparison of two coordinates, as the spec words it. -/
def raw_cmp (a b : ℚ) : Ordering :=
  if a < b then .lt else if b < a then .gt else .eq

/-- Modelled from the spec wording of compare_xyz (claim C8): walk the axes
in the order x, y, z; the first axis on which the points are not
approximately equal decides the result by raw numeric comparison on that
axis; when all three axes are approximately equal the result is Equal. -/
def compare_xyz_spec (a b : Vec3) (tol : ℚ) : Ordering :=
  match [(a.x, b.x), (a.y, b.y), (a.z, b.z)].find?
      (fun q => !approx_equal q.1 q.2 tol) with
  | some q => raw_cmp q.1 q.2
  | none => .eq

/-! ### Basic facts about the tolerance comparator -/

lemma ord_eq_lt_false : (Ordering.eq = Ordering.lt) = False := by simp

lemma ord_gt_lt_false : (Ordering.gt = Ordering.lt) = False := by simp

lemma ord_lt_lt_true : (Ordering.lt = Ordering.lt) = True := by simp

lemma approx_equal_symm (a b t : ℚ) : approx_equal a b t = approx_equal b a t := by
  unfold approx_equal
  rw [abs_sub_comm]

lemma abs_diff_eq_symm (a b : Vec3) (t : ℚ) :
    Vec3.abs_diff_eq a b t = Vec3.abs_diff_eq b a t := by
  unfold Vec3.abs_diff_eq
  rw [abs_sub_comm a.x b.x, abs_sub_comm a.y b.y, abs_sub_comm a.z b.z]

lemma approx_equal_refl (a t : ℚ) (ht : 0 ≤ t) : approx_equal a a t = true := by
  simp [approx_equal, sub_self, abs_zero]
  exact ht

lemma abs_diff_eq_refl (a : Vec3) (t : ℚ) (ht : 0 ≤ t) : Vec3.abs_diff_eq a a t = true := by
  simp [Vec3.abs_diff_eq, sub_self, abs_zero]
  exact ht

lemma compare_refl (a : Vec3) (t : ℚ) (ht : 0 ≤ t) : compare_by_xyz a a t = .eq := by
  simp [compare_by_xyz, approx_equal_refl _ _ ht]

lemma unwrap_pcmp_lt {x y : ℚ} (h : unwrap (pcmp x y) = .lt) : unwrap (pcmp y x) = .gt := by
  unfold unwrap pcmp at h ⊢
  rcases lt_trichotomy x y with hlt | heq | hgt
  · simp [hlt, lt_asymm hlt]
  · subst heq
    simp [lt_irrefl] at h
  · simp [hgt, lt_asymm hgt] at h

lemma compare_lt_swap (a b : Vec3) (t : ℚ) (h : compare_by_xyz a b t = .lt) :
    compare_by_xyz b a t = .gt := by
  unfold compare_by_xyz at h ⊢
  rw [approx_equal_symm b.x a.x, approx_equal_symm b.y a.y, approx_equal_symm b.z a.z]
  by_cases hx : approx_equal a.x b.x t = false
  · rw [if_pos hx] at h ⊢
    exact unwrap_pcmp_lt h
  · rw [if_neg hx] at h ⊢
    by_cases hy : approx_equal a.y b.y t = false
    · rw [if_pos hy] at h ⊢
      exact unwrap_pcmp_lt h
    · rw [if_neg hy] at h ⊢
      by_cases hz : approx_equal a.z b.z t = false
      · rw [if_pos hz] at h ⊢
        exact unwrap_pcmp_lt h
      · rw [if_neg hz] at h
        simp at h

lemma abs_diff_true_compare_eq (a b : Vec3) (t : ℚ) (h : Vec3.abs_diff_eq a b t = true) :
    compare_by_xyz a b t = .eq := by
  simp only [Vec3.abs_diff_eq, Bool.and_eq_true, decide_eq_true_eq] at h
  obtain ⟨⟨h1, h2⟩, h3⟩ := h
  have hx : approx_equal a.x b.x t = true := by
    simp [approx_equal]
    exact h1
  have hy : approx_equal a.y b.y t = true := by
    simp [approx_equal]
    exact h2
  have hz : approx_equal a.z b.z t = true := by
    simp [approx_equal]
    exact h3
  simp [compare_by_xyz, hx, hy, hz]

lemma compare_ne_eq_abs_false (a b : Vec3) (t : ℚ) (h : compare_by_xyz a b t ≠ .eq) :
    Vec3.abs_diff_eq a b t = false := by
  cases habs : Vec3.abs_diff_eq a b t
  · rfl
  · exact absurd (abs_diff_true_compare_eq a b t habs) h

/-! ### Membership facts for the sorting and dedup pipeline -/

lemma mem_insert_head {α : Type} (c : α → α → Ordering) (a x : α) (l : List α)
    (h : x ∈ insert_head c a l) : x = a ∨ x ∈ l := by
  induction l with
  | nil => simpa [insert_head] using h
  | cons b l ih =>
    unfold insert_head at h
    by_cases hc : c b a = Ordering.lt
    · rw [if_pos hc] at h
      rcases List.mem_cons.mp h with rfl | hrest
      · exact Or.inr (List.mem_cons_self x l)
      · rcases ih hrest with h1 | h2
        · exact Or.inl h1
        · exact Or.inr (List.mem_cons_of_mem b h2)
    · rw [if_neg hc] at h
      rcases List.mem_cons.mp h with h1 | h2
      · exact Or.inl h1
      · exact Or.inr h2

lemma mem_sort_by {α : Type} (c : α → α → Ordering) (x : α) (l : List α)
    (h : x ∈ sort_by c l) : x ∈ l := by
  induction l with
  | nil => simpa [sort_by] using h
  | cons a l ih =>
    unfold sort_by at h
    rcases mem_insert_head c a x (sort_by c l) h with rfl | h2
    · exact List.mem_cons_self x l
    · exact List.mem_cons_of_mem a (ih h2)

lemma mem_dedup_by_loop {α : Type} (same : α → α → Bool) (x : α) :
    ∀ (l : List α) (prev : α), x ∈ dedup_by_loop same prev l → x ∈ l := by
  intro l
  induction l with
  | nil =>
    intro prev h
    simpa [dedup_by_loop] using h
  | cons a l ih =>
    intro prev h
    unfold dedup_by_loop at h
    by_cases hs : same a prev = true
    · rw [if_pos hs] at h
      exact List.mem_cons_of_mem a (ih prev h)
    · rw [if_neg hs] at h
      rcases List.mem_cons.mp h with rfl | h2
      · exact List.mem_cons_self x l
      · exact List.mem_cons_of_mem a (ih a h2)

lemma mem_dedup_by {α : Type} (same : α → α → Bool) (x : α) (l : List α)
    (h : x ∈ dedup_by same l) : x ∈ l := by
  cases l with
  | nil => simpa [dedup_by] using h
  | cons a l =>
    unfold dedup_by at h
    rcases List.mem_cons.mp h with rfl | h2
    · exact List.mem_cons_self x l
    · exact List.mem_cons_of_mem a (mem_dedup_by_loop same x l a h2)

lemma slice_segment_y (line : Vec3 × Vec3) (h : ℚ) (p : Vec3)
    (hp : p ∈ slice_segment line h) : p.y = h := by
  unfold slice_segment at hp
  split_ifs at hp
  · rcases List.mem_cons.mp hp with rfl | hp2
    · rfl
    · rcases List.mem_cons.mp hp2 with rfl | hp3
      · rfl
      · exact absurd hp3 (List.not_mem_nil p)
  · rcases List.mem_cons.mp hp with rfl | hp2
    · rfl
    · exact absurd hp2 (List.not_mem_nil p)
  · exact absurd hp (List.not_mem_nil p)
  · exact absurd hp (List.not_mem_nil p)

lemma slice_triangle_y (t : Vec3 × Vec3 × Vec3) (h : ℚ) (p : Vec3)
    (hp : p ∈ slice_triangle t h) : p.y = h := by
  unfold slice_triangle at hp
  have h1 := mem_sort_by _ p _ (mem_dedup_by _ p _ hp)
  rcases List.mem_append.mp h1 with h2 | h3
  · rcases List.mem_append.mp h2 with h4 | h5
    · exact slice_segment_y _ _ _ h4
    · exact slice_segment_y _ _ _ h5
  · exact slice_segment_y _ _ _ h3
/-! ### Segment-level case analysis -/

lemma slice_segment_coplanar (u w : Vec3) (h : ℚ) (hu : u.y = h) (hw : w.y = h) :
    slice_segment (u, w) h = [u, w] := by
  obtain ⟨ux, uy, uz⟩ := u
  obtain ⟨wx, wy, wz⟩ := w
  simp only [Vec3.mk.injEq] at hu hw ⊢
  subst hu
  subst hw
  simp [slice_segment]

lemma slice_segment_below (s e : Vec3) (h : ℚ) (hs : s.y < h) (he : e.y < h) :
    slice_segment (s, e) h = [] := by
  simp only [slice_segment]
  split_ifs with hA hB hC
  · exact absurd hA.2 (ne_of_lt hs)
  · exfalso
    obtain ⟨h0, h1⟩ := hC
    rcases lt_or_gt_of_ne hB with hneg | hpos
    · have : (h - s.y) / (e.y - s.y) < 0 :=
        div_neg_iff.mpr (Or.inl ⟨by linarith, hneg⟩)
      linarith
    · rw [div_le_one hpos] at h1
      linarith
  · rfl
  · rfl

lemma slice_segment_above (s e : Vec3) (h : ℚ) (hs : h < s.y) (he : h < e.y) :
    slice_segment (s, e) h = [] := by
  simp only [slice_segment]
  split_ifs with hA hB hC
  · exact absurd hA.2 (ne_of_gt hs)
  · exfalso
    obtain ⟨h0, h1⟩ := hC
    rcases lt_or_gt_of_ne hB with hneg | hpos
    · rw [div_le_iff_of_neg hneg] at h1
      linarith
    · have : (h - s.y) / (e.y - s.y) < 0 :=
        div_neg_iff.mpr (Or.inr ⟨by linarith, hpos⟩)
      linarith
  · rfl
  · rfl

lemma slice_segment_cross_up (s e : Vec3) (h : ℚ) (hs : s.y < h) (he : h < e.y) :
    slice_segment (s, e) h =
      [⟨s.x + (e.x - s.x) * ((h - s.y) / (e.y - s.y)), h,
        s.z + (e.z - s.z) * ((h - s.y) / (e.y - s.y))⟩] := by
  simp only [slice_segment]
  split_ifs with hA hB hC
  · exact absurd hA.2 (ne_of_lt hs)
  · rfl
  · exfalso
    exact hC ⟨div_nonneg (by linarith) (by linarith),
      (div_le_one (by linarith)).mpr (by linarith)⟩
  · exfalso
    exact hB (ne_of_gt (by linarith))

lemma slice_segment_cross_down (s e : Vec3) (h : ℚ) (hs : h < s.y) (he : e.y < h) :
    slice_segment (s, e) h =
      [⟨s.x + (e.x - s.x) * ((h - s.y) / (e.y - s.y)), h,
        s.z + (e.z - s.z) * ((h - s.y) / (e.y - s.y))⟩] := by
  simp only [slice_segment]
  split_ifs with hA hB hC
  · exact absurd hA.2 (ne_of_gt hs)
  · rfl
  · exfalso
    have hneg : e.y - s.y < 0 := by linarith
    refine hC ⟨(le_div_iff_of_neg hneg).mpr ?_, (div_le_iff_of_neg hneg).mpr ?_⟩
    · rw [zero_mul]
      linarith
    · rw [one_mul]
      linarith
  · exfalso
    exact hB (ne_of_lt (by linarith))

lemma dedup_sort_pair_length (p q : Vec3) :
    (dedup_by (fun a b => Vec3.abs_diff_eq a b EPSILON)
        (sort_by (fun a b => compare_by_xyz a b EPSILON) [p, q])).length = 1 ∨
    (dedup_by (fun a b => Vec3.abs_diff_eq a b EPSILON)
        (sort_by (fun a b => compare_by_xyz a b EPSILON) [p, q])).length = 2 := by
  simp only [sort_by, insert_head]
  by_cases hc : compare_by_xyz q p EPSILON = Ordering.lt
  · rw [if_pos hc]
    simp only [dedup_by, dedup_by_loop]
    by_cases hs : Vec3.abs_diff_eq p q EPSILON = true
    · rw [if_pos hs]
      left
      rfl
    · rw [if_neg hs]
      right
      rfl
  · rw [if_neg hc]
    simp only [dedup_by, dedup_by_loop]
    by_cases hs : Vec3.abs_diff_eq q p EPSILON = true
    · rw [if_pos hs]
      left
      rfl
    · rw [if_neg hs]
      right
      rfl

/-! ### Chain and length facts for dedup and sort -/

lemma chain_dedup_by_loop {α : Type} (same : α → α → Bool) :
    ∀ (l : List α) (prev : α),
      List.Chain' (fun a b => same b a = false) (prev :: dedup_by_loop same prev l) := by
  intro l
  induction l with
  | nil =>
    intro prev
    simp [dedup_by_loop]
  | cons a l ih =>
    intro prev
    unfold dedup_by_loop
    by_cases hs : same a prev = true
    · rw [if_pos hs]
      exact ih prev
    · rw [if_neg hs]
      exact List.chain'_cons.mpr ⟨by simpa using hs, ih a⟩

lemma chain_dedup_by {α : Type} (same : α → α → Bool) (l : List α) :
    List.Chain' (fun a b => same b a = false) (dedup_by same l) := by
  cases l with
  | nil => simp [dedup_by]
  | cons a l => exact chain_dedup_by_loop same l a

lemma slice_segment_length_le (line : Vec3 × Vec3) (h : ℚ) :
    (slice_segment line h).length ≤ 2 := by
  unfold slice_segment
  split_ifs <;> simp

lemma insert_head_length {α : Type} (c : α → α → Ordering) (a : α) (l : List α) :
    (insert_head c a l).length = l.length + 1 := by
  induction l with
  | nil => rfl
  | cons b l ih =>
    unfold insert_head
    split_ifs
    · simp [ih]
    · simp

lemma sort_by_length {α : Type} (c : α → α → Ordering) (l : List α) :
    (sort_by c l).length = l.length := by
  induction l with
  | nil => rfl
  | cons a l ih =>
    unfold sort_by
    rw [insert_head_length, ih]
    rfl

lemma dedup_by_loop_length {α : Type} (same : α → α → Bool) :
    ∀ (l : List α) (prev : α), (dedup_by_loop same prev l).length ≤ l.length := by
  intro l
  induction l with
  | nil =>
    intro prev
    simp [dedup_by_loop]
  | cons a l ih =>
    intro prev
    unfold dedup_by_loop
    split_ifs
    · exact le_trans (ih prev) (by simp)
    · simpa using ih a

lemma dedup_by_length {α : Type} (same : α → α → Bool) (l : List α) :
    (dedup_by same l).length ≤ l.length := by
  cases l with
  | nil => simp [dedup_by]
  | cons a l =>
    have := dedup_by_loop_length same l a
    simpa [dedup_by] using this
lemma pcmp_isSome (x y : ℚ) : (pcmp x y).isSome = true := by
  unfold pcmp
  split_ifs <;> rfl

/-! ### Claims -/

/-- C1 (amended): for every triangle and height, no two ADJACENT points of
the sequence returned by slice_triangle are within tolerance EPSILON of
each other component-wise (the adjacent-dedup guarantee). The original
claim — sortedness plus distance beyond tolerance between ALL pairs — fails
on the code, see c1_counterexample: the tolerance comparator is not
transitive, so sorting need not bring all near-duplicates together and the
adjacent dedup can leave both a duplicated point and an unsorted adjacent
pair. -/
theorem c1_adjacent_dedup (t : Vec3 × Vec3 × Vec3) (h : ℚ) :
    List.Chain' (fun a b => Vec3.abs_diff_eq a b EPSILON = false) (slice_triangle t h) := by
  unfold slice_triangle
  refine List.Chain'.imp ?_ (chain_dedup_by _ _)
  intro a b hab
  rw [abs_diff_eq_symm]
  exact hab

/-- C1 counterexample: a coplanar triangle with near-coincident vertices for
which slice_triangle returns [p, q, p]: the first and third points are
identical (within any tolerance of each other), and the first adjacent pair
compares Greater, so the output is neither sorted ascending nor pairwise
separated beyond tolerance. -/
theorem c1_counterexample :
    slice_triangle (⟨0, 0, 0⟩, ⟨1/1250000, 0, -19/20000000⟩, ⟨-3/20000000, 0, -19/10000000⟩) 0 =
      [⟨0, 0, 0⟩, ⟨-3/20000000, 0, -19/10000000⟩, ⟨0, 0, 0⟩] ∧
    Vec3.abs_diff_eq ⟨0, 0, 0⟩ ⟨0, 0, 0⟩ EPSILON = true ∧
    compare_by_xyz ⟨0, 0, 0⟩ ⟨-3/20000000, 0, -19/10000000⟩ EPSILON = Ordering.gt := by
  refine ⟨?_, ?_, ?_⟩
  · norm_num [slice_triangle, slice_segment, sort_by, insert_head, dedup_by, dedup_by_loop,
      compare_by_xyz, approx_equal, Vec3.abs_diff_eq, pcmp, unwrap, EPSILON, abs_le, lt_abs,
      ord_eq_lt_false, ord_gt_lt_false, ord_lt_lt_true]
  · norm_num [Vec3.abs_diff_eq, EPSILON]
  · norm_num [compare_by_xyz, approx_equal, pcmp, unwrap, EPSILON, abs_le, lt_abs]

/-- C2: every point in the sequences returned by slice_segment and by
slice_triangle has its y-component exactly equal to the queried height
(the y is assigned, never recomputed by interpolation). -/
theorem c2_y_exactly_height :
    (∀ (line : Vec3 × Vec3) (h : ℚ) (p : Vec3), p ∈ slice_segment line h → p.y = h) ∧
    (∀ (t : Vec3 × Vec3 × Vec3) (h : ℚ) (p : Vec3), p ∈ slice_triangle t h → p.y = h) :=
  ⟨slice_segment_y, slice_triangle_y⟩

/-- C2 witness: the point returned for a concrete edge has y exactly 1/2. -/
theorem c2_witness : (Vec3.mk 0 (1/2) 0).y = (1/2 : ℚ) :=
  c2_y_exactly_height.1 (Vec3.mk 0 0 0, Vec3.mk 0 1 0) (1/2) (Vec3.mk 0 (1/2) 0)
    (by with_unfolding_all decide)

/-- C3 (amended): the length of the sequence returned by slice_triangle is
at most 6 (three edges, each contributing at most two points). The original
claim that the length is always 0, 2 or 3 fails on the code: a plane
touching the triangle in a single vertex yields length 1
(c3_counterexample), and a coplanar triangle whose vertices form a cycle of
the tolerance comparator yields length 4. -/
theorem c3_length_le_six (t : Vec3 × Vec3 × Vec3) (h : ℚ) :
    (slice_triangle t h).length ≤ 6 := by
  unfold slice_triangle
  have h1 := dedup_by_length (fun a b => Vec3.abs_diff_eq a b EPSILON)
    (sort_by (fun a b => compare_by_xyz a b EPSILON)
      (slice_segment (t.1, t.2.1) h ++ slice_segment (t.2.1, t.2.2) h ++
        slice_segment (t.2.2, t.1) h))
  rw [sort_by_length] at h1
  have h2 := slice_segment_length_le (t.1, t.2.1) h
  have h3 := slice_segment_length_le (t.2.1, t.2.2) h
  have h4 := slice_segment_length_le (t.2.2, t.1) h
  simp only [List.length_append] at h1
  omega

/-- C3 counterexample: the plane y = 0 touches the triangle
((0,0,0), (0,1,0), (1,1,0)) only at the vertex (0,0,0); both incident edges
contribute that vertex, dedup collapses the two copies, and slice_triangle
returns exactly 1 point — a cardinality the claim says never occurs. -/
theorem c3_counterexample :
    ¬ ((slice_triangle (⟨0, 0, 0⟩, ⟨0, 1, 0⟩, ⟨1, 1, 0⟩) 0).length = 0 ∨
       (slice_triangle (⟨0, 0, 0⟩, ⟨0, 1, 0⟩, ⟨1, 1, 0⟩) 0).length = 2 ∨
       (slice_triangle (⟨0, 0, 0⟩, ⟨0, 1, 0⟩, ⟨1, 1, 0⟩) 0).length = 3) := by
  have h1 : (slice_triangle (⟨0, 0, 0⟩, ⟨0, 1, 0⟩, ⟨1, 1, 0⟩) 0).length = 1 := by
    norm_num [slice_triangle, slice_segment, sort_by, insert_head, dedup_by, dedup_by_loop,
      compare_by_xyz, approx_equal, Vec3.abs_diff_eq, pcmp, unwrap, EPSILON, abs_le, lt_abs,
      ord_eq_lt_false, ord_gt_lt_false, ord_lt_lt_true]
  rw [h1]
  simp

/-- C4: for an edge whose direction has y-component not approximately 0,
with t = (h - start.y) / (end.y - start.y): if t lies in [0, 1] the result
is the single interpolated point (x and z interpolated at t, y exactly h);
otherwise the result is empty. -/
theorem c4_transversal (s e : Vec3) (h : ℚ)
    (hne : approx_equal (e.y - s.y) 0 EPSILON = false) :
    ((0 ≤ (h - s.y) / (e.y - s.y) ∧ (h - s.y) / (e.y - s.y) ≤ 1) →
      slice_segment (s, e) h =
        [⟨s.x + (e.x - s.x) * ((h - s.y) / (e.y - s.y)), h,
          s.z + (e.z - s.z) * ((h - s.y) / (e.y - s.y))⟩]) ∧
    (¬ (0 ≤ (h - s.y) / (e.y - s.y) ∧ (h - s.y) / (e.y - s.y) ≤ 1) →
      slice_segment (s, e) h = []) := by
  have heps : (0 : ℚ) < EPSILON := by norm_num [EPSILON]
  have hd : e.y - s.y ≠ 0 := by
    intro h0
    rw [h0] at hne
    simp [approx_equal] at hne
    nlinarith
  have hns : ¬ (e.y - s.y = 0 ∧ s.y = h) := fun hc => hd hc.1
  constructor
  · intro ht
    simp only [slice_segment]
    rw [if_neg hns, if_pos hd, if_pos ht]
  · intro ht
    simp only [slice_segment]
    rw [if_neg hns, if_pos hd, if_neg ht]

/-- C4 witness: a vertical edge crossed at its midpoint. -/
theorem c4_witness :
    slice_segment (Vec3.mk 0 0 0, Vec3.mk 0 1 0) (1/2) =
      [⟨0 + (0 - 0) * ((1/2 - 0) / (1 - 0)), 1/2, 0 + (0 - 0) * ((1/2 - 0) / (1 - 0))⟩] :=
  (c4_transversal (Vec3.mk 0 0 0) (Vec3.mk 0 1 0) (1/2)
    (by with_unfolding_all decide)).1 (by norm_num)

/-- C5 (amended): for an edge whose direction has y-component EXACTLY 0 and
whose start y is EXACTLY h, slice_segment returns start and end in that
order, each with y set to h. The original claim used approximate equality
in both conditions; the code tests exact equality, see c5_counterexample. -/
theorem c5_parallel_exact (s e : Vec3) (h : ℚ) (hd : e.y - s.y = 0) (hs : s.y = h) :
    slice_segment (s, e) h = [⟨s.x, h, s.z⟩, ⟨e.x, h, e.z⟩] := by
  simp only [slice_segment]
  rw [if_pos ⟨hd, hs⟩]

/-- C5 witness: a horizontal edge lying exactly in the plane. -/
theorem c5_witness :
    slice_segment (Vec3.mk 0 0 0, Vec3.mk 1 0 0) 0 = [⟨0, 0, 0⟩, ⟨1, 0, 0⟩] :=
  c5_parallel_exact (Vec3.mk 0 0 0) (Vec3.mk 1 0 0) 0 (by norm_num) rfl

/-- C5 counterexample: an edge whose direction y-component is 1e-8 —
approximately 0 under EPSILON — starting exactly at the plane. The claim
demands two points; the code takes the interpolation branch (the exact test
direction.y == 0 fails) and returns a single point. -/
theorem c5_counterexample :
    approx_equal ((Vec3.mk 1 (1/100000000) 0).y - (Vec3.mk 0 0 0).y) 0 EPSILON = true ∧
    approx_equal (Vec3.mk 0 0 0).y 0 EPSILON = true ∧
    (slice_segment (Vec3.mk 0 0 0, Vec3.mk 1 (1/100000000) 0) 0).length = 1 := by
  refine ⟨?_, ?_, ?_⟩
  · norm_num [approx_equal, EPSILON, abs_le]
  · norm_num [approx_equal, EPSILON, abs_le]
  · norm_num [slice_segment, EPSILON, abs_le]

/-- C9: on finite inputs (the rational model has no NaN) every comparison
compare_by_xyz unwraps is Some: the three pcmp call sites of
compare_by_xyz always return a value, so the unwrap panic is unreachable. -/
theorem c9_unwrap_total (a b : Vec3) :
    (pcmp a.x b.x).isSome = true ∧ (pcmp a.y b.y).isSome = true ∧
      (pcmp a.z b.z).isSome = true :=
  ⟨pcmp_isSome a.x b.x, pcmp_isSome a.y b.y, pcmp_isSome a.z b.z⟩

/-- C10: for a zero-length edge whose endpoints coincide at a point with y
exactly h, slice_segment returns TWO identical copies of that point:
slice_segment itself never deduplicates. -/
theorem c10_zero_length_edge (p : Vec3) (h : ℚ) (hp : p.y = h) :
    slice_segment (p, p) h = [⟨p.x, h, p.z⟩, ⟨p.x, h, p.z⟩] := by
  simp only [slice_segment]
  rw [if_pos ⟨by ring, hp⟩]

/-- C10 witness: a concrete degenerate edge yielding a duplicated point. -/
theorem c10_witness :
    slice_segment (Vec3.mk 2 3 4, Vec3.mk 2 3 4) 3 = [⟨2, 3, 4⟩, ⟨2, 3, 4⟩] :=
  c10_zero_length_edge (Vec3.mk 2 3 4) 3 rfl
/-- C6 (amended): a triangle that strictly straddles the plane (one vertex
strictly above and the other two strictly below, or vice versa) yields
exactly 2 points unless the two edge crossings land within tolerance of
each other, in which case dedup collapses them and exactly 1 point is
returned; so the length is 1 or 2. The original claim of exactly 2 fails
on slivers, see c6_counterexample. -/
theorem c6_straddle_length (a b c : Vec3) (h : ℚ)
    (hstr : (h < a.y ∧ b.y < h ∧ c.y < h) ∨ (h < b.y ∧ c.y < h ∧ a.y < h) ∨
            (h < c.y ∧ a.y < h ∧ b.y < h) ∨ (a.y < h ∧ h < b.y ∧ h < c.y) ∨
            (b.y < h ∧ h < c.y ∧ h < a.y) ∨ (c.y < h ∧ h < a.y ∧ h < b.y)) :
    (slice_triangle (a, b, c) h).length = 1 ∨ (slice_triangle (a, b, c) h).length = 2 := by
  simp only [slice_triangle]
  rcases hstr with ⟨h1, h2, h3⟩ | ⟨h1, h2, h3⟩ | ⟨h1, h2, h3⟩ | ⟨h1, h2, h3⟩ |
    ⟨h1, h2, h3⟩ | ⟨h1, h2, h3⟩
  · rw [slice_segment_cross_down a b h h1 h2, slice_segment_below b c h h2 h3,
      slice_segment_cross_up c a h h3 h1]
    simp only [List.singleton_append, List.append_nil, List.nil_append, List.cons_append]
    exact dedup_sort_pair_length _ _
  · rw [slice_segment_cross_up a b h h3 h1, slice_segment_cross_down b c h h1 h2,
      slice_segment_below c a h h2 h3]
    simp only [List.singleton_append, List.append_nil, List.nil_append, List.cons_append]
    exact dedup_sort_pair_length _ _
  · rw [slice_segment_below a b h h2 h3, slice_segment_cross_up b c h h3 h1,
      slice_segment_cross_down c a h h1 h2]
    simp only [List.singleton_append, List.append_nil, List.nil_append, List.cons_append]
    exact dedup_sort_pair_length _ _
  · rw [slice_segment_cross_up a b h h1 h2, slice_segment_above b c h h2 h3,
      slice_segment_cross_down c a h h3 h1]
    simp only [List.singleton_append, List.append_nil, List.nil_append, List.cons_append]
    exact dedup_sort_pair_length _ _
  · rw [slice_segment_cross_down a b h h3 h1, slice_segment_cross_up b c h h1 h2,
      slice_segment_above c a h h2 h3]
    simp only [List.singleton_append, List.append_nil, List.nil_append, List.cons_append]
    exact dedup_sort_pair_length _ _
  · rw [slice_segment_above a b h h2 h3, slice_segment_cross_down b c h h3 h1,
      slice_segment_cross_up c a h h1 h2]
    simp only [List.singleton_append, List.append_nil, List.nil_append, List.cons_append]
    exact dedup_sort_pair_length _ _

/-- C6 witness: a regular straddling triangle, length 1 or 2 as the
amended claim states (here it is 2). -/
theorem c6_witness :
    (slice_triangle (Vec3.mk 0 1 0, Vec3.mk 0 (-1) 0, Vec3.mk 2 (-1) 0) 0).length = 1 ∨
    (slice_triangle (Vec3.mk 0 1 0, Vec3.mk 0 (-1) 0, Vec3.mk 2 (-1) 0) 0).length = 2 :=
  c6_straddle_length (Vec3.mk 0 1 0) (Vec3.mk 0 (-1) 0) (Vec3.mk 2 (-1) 0) 0
    (Or.inl ⟨by norm_num, by norm_num, by norm_num⟩)

/-- C6 counterexample: a sliver triangle strictly straddling the plane
(vertex (0,1,0) above, (0,-1,0) and (1e-7,-1,0) below) whose two edge
crossings are 5e-8 apart — within EPSILON — so dedup merges them and
slice_triangle returns 1 point, not the 2 the claim requires. -/
theorem c6_counterexample :
    ((0 : ℚ) < (Vec3.mk 0 1 0).y ∧ (Vec3.mk 0 (-1) 0).y < 0 ∧
      (Vec3.mk (1/10000000) (-1) 0).y < 0) ∧
    (slice_triangle (Vec3.mk 0 1 0, Vec3.mk 0 (-1) 0, Vec3.mk (1/10000000) (-1) 0) 0).length = 1 := by
  constructor
  · exact ⟨by norm_num, by norm_num, by norm_num⟩
  · norm_num [slice_triangle, slice_segment, sort_by, insert_head, dedup_by, dedup_by_loop,
      compare_by_xyz, approx_equal, Vec3.abs_diff_eq, pcmp, unwrap, EPSILON, abs_le, lt_abs,
      ord_eq_lt_false, ord_gt_lt_false, ord_lt_lt_true]

/-- C7 (amended): a triangle whose three vertices all lie EXACTLY at height
h and are pairwise strictly ordered by compare_by_xyz at EPSILON (some
arrangement is an ascending chain, which rules out vertices within
tolerance of each other and comparator cycles) returns exactly its 3
vertices, in comparator-ascending order. The original claim fails both for
y approximately (but not exactly) h, see c7_counterexample, and for
within-tolerance or cyclically-compared vertices (see c1_counterexample's
triangle, which returns [p, q, p] instead of its vertices). -/
theorem c7_coplanar_vertices (v0 v1 v2 : Vec3) (h : ℚ)
    (h0 : v0.y = h) (h1 : v1.y = h) (h2 : v2.y = h)
    (hord :
      (compare_by_xyz v0 v1 EPSILON = .lt ∧ compare_by_xyz v1 v2 EPSILON = .lt ∧
        compare_by_xyz v0 v2 EPSILON = .lt) ∨
      (compare_by_xyz v0 v2 EPSILON = .lt ∧ compare_by_xyz v2 v1 EPSILON = .lt ∧
        compare_by_xyz v0 v1 EPSILON = .lt) ∨
      (compare_by_xyz v1 v0 EPSILON = .lt ∧ compare_by_xyz v0 v2 EPSILON = .lt ∧
        compare_by_xyz v1 v2 EPSILON = .lt) ∨
      (compare_by_xyz v1 v2 EPSILON = .lt ∧ compare_by_xyz v2 v0 EPSILON = .lt ∧
        compare_by_xyz v1 v0 EPSILON = .lt) ∨
      (compare_by_xyz v2 v0 EPSILON = .lt ∧ compare_by_xyz v0 v1 EPSILON = .lt ∧
        compare_by_xyz v2 v1 EPSILON = .lt) ∨
      (compare_by_xyz v2 v1 EPSILON = .lt ∧ compare_by_xyz v1 v0 EPSILON = .lt ∧
        compare_by_xyz v2 v0 EPSILON = .lt)) :
    (slice_triangle (v0, v1, v2) h).Perm [v0, v1, v2] ∧
    List.Chain' (fun p q => compare_by_xyz p q EPSILON ≠ Ordering.gt)
      (slice_triangle (v0, v1, v2) h) := by
  have heps : (0 : ℚ) ≤ EPSILON := by norm_num [EPSILON]
  have r0 := compare_refl v0 EPSILON heps
  have r1 := compare_refl v1 EPSILON heps
  have r2 := compare_refl v2 EPSILON heps
  have a0 := abs_diff_eq_refl v0 EPSILON heps
  have a1 := abs_diff_eq_refl v1 EPSILON heps
  have a2 := abs_diff_eq_refl v2 EPSILON heps
  have hpre : slice_triangle (v0, v1, v2) h =
      dedup_by (fun a b => Vec3.abs_diff_eq a b EPSILON)
        (sort_by (fun a b => compare_by_xyz a b EPSILON) [v0, v1, v1, v2, v2, v0]) := by
    simp only [slice_triangle]
    rw [slice_segment_coplanar v0 v1 h h0 h1, slice_segment_coplanar v1 v2 h h1 h2,
      slice_segment_coplanar v2 v0 h h2 h0]
    rfl
  rw [hpre]
  rcases hord with ⟨cxy, cyz, cxz⟩ | ⟨cxy, cyz, cxz⟩ | ⟨cxy, cyz, cxz⟩ | ⟨cxy, cyz, cxz⟩ |
    ⟨cxy, cyz, cxz⟩ | ⟨cxy, cyz, cxz⟩
  all_goals
    have s1 := compare_lt_swap _ _ _ cxy
    have s2 := compare_lt_swap _ _ _ cyz
    have s3 := compare_lt_swap _ _ _ cxz
    have d1 := compare_ne_eq_abs_false _ _ _ (by rw [s1]; decide)
    have d2 := compare_ne_eq_abs_false _ _ _ (by rw [s2]; decide)
    have d3 := compare_ne_eq_abs_false _ _ _ (by rw [s3]; decide)
    have d4 := compare_ne_eq_abs_false _ _ _ (by rw [cxy]; decide)
    have d5 := compare_ne_eq_abs_false _ _ _ (by rw [cyz]; decide)
    have d6 := compare_ne_eq_abs_false _ _ _ (by rw [cxz]; decide)
  · have hsorted : sort_by (fun a b => compare_by_xyz a b EPSILON) [v0, v1, v1, v2, v2, v0] =
        [v0, v0, v1, v1, v2, v2] := by
      simp [sort_by, insert_head, cxy, cyz, cxz, s1, s2, s3, r0, r1, r2]
    have hded : dedup_by (fun a b => Vec3.abs_diff_eq a b EPSILON) [v0, v0, v1, v1, v2, v2] =
        [v0, v1, v2] := by
      simp [dedup_by, dedup_by_loop, a0, a1, a2, d1, d2, d3, d4, d5, d6]
    rw [hsorted, hded]
    exact ⟨List.Perm.refl _, by simp [List.chain'_cons, cxy, cyz]⟩
  · have hsorted : sort_by (fun a b => compare_by_xyz a b EPSILON) [v0, v1, v1, v2, v2, v0] =
        [v0, v0, v2, v2, v1, v1] := by
      simp [sort_by, insert_head, cxy, cyz, cxz, s1, s2, s3, r0, r1, r2]
    have hded : dedup_by (fun a b => Vec3.abs_diff_eq a b EPSILON) [v0, v0, v2, v2, v1, v1] =
        [v0, v2, v1] := by
      simp [dedup_by, dedup_by_loop, a0, a1, a2, d1, d2, d3, d4, d5, d6]
    rw [hsorted, hded]
    exact ⟨List.Perm.cons v0 (List.Perm.swap v1 v2 []),
      by simp [List.chain'_cons, cxy, cyz]⟩
  · have hsorted : sort_by (fun a b => compare_by_xyz a b EPSILON) [v0, v1, v1, v2, v2, v0] =
        [v1, v1, v0, v0, v2, v2] := by
      simp [sort_by, insert_head, cxy, cyz, cxz, s1, s2, s3, r0, r1, r2]
    have hded : dedup_by (fun a b => Vec3.abs_diff_eq a b EPSILON) [v1, v1, v0, v0, v2, v2] =
        [v1, v0, v2] := by
      simp [dedup_by, dedup_by_loop, a0, a1, a2, d1, d2, d3, d4, d5, d6]
    rw [hsorted, hded]
    exact ⟨List.Perm.swap v0 v1 [v2], by simp [List.chain'_cons, cxy, cyz]⟩
  · have hsorted : sort_by (fun a b => compare_by_xyz a b EPSILON) [v0, v1, v1, v2, v2, v0] =
        [v1, v1, v2, v2, v0, v0] := by
      simp [sort_by, insert_head, cxy, cyz, cxz, s1, s2, s3, r0, r1, r2]
    have hded : dedup_by (fun a b => Vec3.abs_diff_eq a b EPSILON) [v1, v1, v2, v2, v0, v0] =
        [v1, v2, v0] := by
      simp [dedup_by, dedup_by_loop, a0, a1, a2, d1, d2, d3, d4, d5, d6]
    rw [hsorted, hded]
    exact ⟨(List.Perm.cons v1 (List.Perm.swap v0 v2 [])).trans (List.Perm.swap v0 v1 [v2]),
      by simp [List.chain'_cons, cxy, cyz]⟩
  · have hsorted : sort_by (fun a b => compare_by_xyz a b EPSILON) [v0, v1, v1, v2, v2, v0] =
        [v2, v2, v0, v0, v1, v1] := by
      simp [sort_by, insert_head, cxy, cyz, cxz, s1, s2, s3, r0, r1, r2]
    have hded : dedup_by (fun a b => Vec3.abs_diff_eq a b EPSILON) [v2, v2, v0, v0, v1, v1] =
        [v2, v0, v1] := by
      simp [dedup_by, dedup_by_loop, a0, a1, a2, d1, d2, d3, d4, d5, d6]
    rw [hsorted, hded]
    exact ⟨(List.Perm.swap v0 v2 [v1]).trans (List.Perm.cons v0 (List.Perm.swap v1 v2 [])),
      by simp [List.chain'_cons, cxy, cyz]⟩
  · have hsorted : sort_by (fun a b => compare_by_xyz a b EPSILON) [v0, v1, v1, v2, v2, v0] =
        [v2, v2, v1, v1, v0, v0] := by
      simp [sort_by, insert_head, cxy, cyz, cxz, s1, s2, s3, r0, r1, r2]
    have hded : dedup_by (fun a b => Vec3.abs_diff_eq a b EPSILON) [v2, v2, v1, v1, v0, v0] =
        [v2, v1, v0] := by
      simp [dedup_by, dedup_by_loop, a0, a1, a2, d1, d2, d3, d4, d5, d6]
    rw [hsorted, hded]
    exact ⟨(List.Perm.swap v1 v2 [v0]).trans
        ((List.Perm.cons v1 (List.Perm.swap v0 v2 [])).trans (List.Perm.swap v0 v1 [v2])),
      by simp [List.chain'_cons, cxy, cyz]⟩

/-- C7 witness: a concrete exactly-coplanar triangle with well separated
vertices returns its 3 vertices sorted. -/
theorem c7_witness :
    (slice_triangle (Vec3.mk 0 0 0, Vec3.mk 1 0 0, Vec3.mk 2 0 0) 0).Perm
      [Vec3.mk 0 0 0, Vec3.mk 1 0 0, Vec3.mk 2 0 0] ∧
    List.Chain' (fun p q => compare_by_xyz p q EPSILON ≠ Ordering.gt)
      (slice_triangle (Vec3.mk 0 0 0, Vec3.mk 1 0 0, Vec3.mk 2 0 0) 0) :=
  c7_coplanar_vertices (Vec3.mk 0 0 0) (Vec3.mk 1 0 0) (Vec3.mk 2 0 0) 0 rfl rfl rfl
    (Or.inl ⟨by norm_num [compare_by_xyz, approx_equal, pcmp, unwrap, EPSILON, abs_le, lt_abs],
      by norm_num [compare_by_xyz, approx_equal, pcmp, unwrap, EPSILON, abs_le, lt_abs],
      by norm_num [compare_by_xyz, approx_equal, pcmp, unwrap, EPSILON, abs_le, lt_abs]⟩)

/-- C7 counterexample: a triangle with all vertices at y = 1e-8 —
approximately equal to h = 0 under EPSILON — returns the empty list, not
its 3 vertices: every edge has direction.y == 0 but start.y != h exactly,
so each edge takes the no-intersection branch. -/
theorem c7_counterexample :
    approx_equal (Vec3.mk 0 (1/100000000) 0).y 0 EPSILON = true ∧
    approx_equal (Vec3.mk 1 (1/100000000) 0).y 0 EPSILON = true ∧
    approx_equal (Vec3.mk 0 (1/100000000) 1).y 0 EPSILON = true ∧
    slice_triangle (Vec3.mk 0 (1/100000000) 0, Vec3.mk 1 (1/100000000) 0,
      Vec3.mk 0 (1/100000000) 1) 0 = [] := by
  refine ⟨?_, ?_, ?_, ?_⟩
  · norm_num [approx_equal, EPSILON, abs_le]
  · norm_num [approx_equal, EPSILON, abs_le]
  · norm_num [approx_equal, EPSILON, abs_le]
  · norm_num [slice_triangle, slice_segment, sort_by, insert_head, dedup_by, dedup_by_loop,
      EPSILON]

/-- C8: compare_by_xyz compares axis x, then y, then z; the first axis not
approximately equal (per approx_equal) decides the result by raw numeric
comparison on that axis, and when all three axes are approximately equal
the result is Equal — stated as agreement with the spec-worded comparator
compare_xyz_spec. -/
theorem c8_compare_matches_spec (a b : Vec3) (tol : ℚ) :
    compare_by_xyz a b tol = compare_xyz_spec a b tol := by
  have hup : ∀ x y : ℚ, unwrap (pcmp x y) = raw_cmp x y := by
    intro x y
    unfold unwrap pcmp raw_cmp
    split_ifs <;> rfl
  unfold compare_by_xyz compare_xyz_spec
  by_cases hx : approx_equal a.x b.x tol = false
  · simp [List.find?, hx, hup]
  · have hx' : approx_equal a.x b.x tol = true := by simpa using hx
    by_cases hy : approx_equal a.y b.y tol = false
    · simp [List.find?, hx', hy, hup]
    · have hy' : approx_equal a.y b.y tol = true := by simpa using hy
      by_cases hz : approx_equal a.z b.z tol = false
      · simp [List.find?, hx', hy', hz, hup]
      · have hz' : approx_equal a.z b.z tol = true := by simpa using hz
        simp [List.find?, hx', hy', hz']
